import Mathlib

/-!
Exam session orchestration engine — verification development.

A shallow embedding of the exam-flow state machine of the speaking-exam
simulator, translated from the JavaScript sources:

* `src/webapp/js/pages/mock-test.js` — `MockTestPage`, the 4-part mock-test
  flow engine (parts `["1.1", "1.2", "2", "3"]`);
* `src/unnamed/part_002` — `Recorder`, the microphone capture controller;
* `src/unnamed/part_006` — `PracticePage`, the single-part practice flow
  (its `startSession` surfaces a "No questions available" screen);
* the CEFR badge / words-per-minute display projections shared by the pages.

The page object's mutable singleton fields become an explicit state record
`MState`; each DOM event handler becomes a case of the total transition
function `step : MState → Event → MState`.  Handlers that cannot fire on the
current screen (their button does not exist in the rendered DOM) leave the
state unchanged.  Asynchronous boundaries (the `fetch`/`await` calls and the
`MediaRecorder` callbacks) are modelled as separate events carrying the
outcome (`startOk`/`startErr`, `submitOk`/`submitErr`, `finalizeOk`/…): the
tap that invokes `Recorder.stop()` also marks the submission as dispatched
(`pendingSubmit`), because `Recorder.stop` synchronously leads to
`onstop → handleRecording`, which posts the form.
-/

/-- One question entry of a part, as delivered by `/api/sessions/start`
(`test.parts[p].questions[i].question`); we keep just the question text. -/
abbrev Question := String

/-- Per-part payload `test.parts[partId]`.  Missing fields default the
way the JS optional chaining does (`|| []`, `|| {}`). -/
structure PartData where
  questions : List Question := []
  images : List String := []
  topic : String := ""
  for_points : List String := []
  against_points : List String := []
  deriving Repr, DecidableEq

/-- The `{}` produced by `this.test?.parts?.[this.currentPart] || {}`. -/
def PartData.empty : PartData := {}

/-- Entries of `this.responses` pushed by `MockTestPage.handleRecording`:
`{ part, question, transcription, duration }`. -/
structure ResponseRecord where
  part : String
  question : String
  transcription : String
  duration : ℚ
  deriving Repr, DecidableEq

/-- Recording phase `this.state` of the page: `'idle' | 'recording' | 'processing'`. -/
inductive RecPhase
  | idle
  | recording
  | processing
  deriving Repr, DecidableEq

/-- Debate side `this.debateSide`: `'for' | 'against'` once chosen. -/
inductive Side
  | forSide
  | againstSide
  deriving Repr, DecidableEq

/-- Which rendering of the page container is currently shown.  Each
constructor corresponds to one `container.innerHTML = …` block of
`MockTestPage`; `home` stands for `App.navigate('home')`, i.e. the exam page
has been left. -/
inductive Screen
  | loading
  | intro
  | question
  | debateSelection
  | debateRecording
  | partTransition
  | finalizing
  | results
  | resultsError
  | limitError
  | genericError
  | home
  deriving Repr, DecidableEq

/-- The strings written to `#record-hint` (`hint.textContent = …`), as an
enumeration so that the numeric content of the message is explicit:
`waitMore n` is `` `Wait ${n}s more...` `` with `n = Math.ceil(5 - elapsed)`. -/
inductive Hint
  | tapToStart
  | waitMore (secs : ℤ)
  | recordingMin
  | processing
  | micDenied
  | tapToTryAgain
  deriving Repr, DecidableEq

/-- Fixed part order `MockTestPage.parts` of the mock test. -/
def mockParts : List String := ["1.1", "1.2", "2", "3"]

/-- The mutable fields of the `MockTestPage` singleton that the flow engine
reads or writes, plus resource-accounting booleans for the auto-advance
interval (`this.autoAdvanceTimer`), the prompt audio (`this.currentAudio`
playing), and the microphone capture (`Recorder.isRecording()`). -/
structure MState where
  test : List (String × PartData)
  currentPartIndex : Nat
  currentIndex : Nat
  responses : List ResponseRecord
  phase : RecPhase
  debateSide : Option Side
  screen : Screen
  autoAdvanceTimer : Bool
  audioPlaying : Bool
  recorderActive : Bool
  pendingSubmit : Bool
  hint : Hint
  selectedVoice : Option String
  deriving Repr, DecidableEq

/-- Getter `currentPart`: `this.parts[this.currentPartIndex]`. -/
def MState.curPart (s : MState) : String :=
  mockParts.getD s.currentPartIndex ""

/-- Getter `currentPartData`: `this.test?.parts?.[this.currentPart] || \x7b\x7d`. -/
def MState.curPartData (s : MState) : PartData :=
  (s.test.lookup s.curPart).getD PartData.empty

/-- Getter `currentQuestions`: `this.currentPartData.questions || []`. -/
def MState.curQuestions (s : MState) : List Question :=
  s.curPartData.questions

/-- The state in which `render` has reset every field and shown the loading
spinner, awaiting the `/api/sessions/start` response. -/
def initMock : MState :=
  { test := []
    currentPartIndex := 0
    currentIndex := 0
    responses := []
    phase := .idle
    debateSide := none
    screen := .loading
    autoAdvanceTimer := false
    audioPlaying := false
    recorderActive := false
    pendingSubmit := false
    hint := .tapToStart
    selectedVoice := none }

/-- JavaScript substring test `err.message.includes('Daily mock limit')` —
`String.prototype.includes`, i.e. substring containment. -/
def jsIncludes (s pat : String) : Bool :=
  s.toList.tails.any fun t => pat.toList.isPrefixOf t

/-- Model of `MockTestPage.playQuestion(text)`: pauses any current audio, then — only
when a voice is selected — requests TTS audio and plays it.  We model the
playback request being issued (and the TTS call succeeding) whenever a voice
is selected; on failure the channel degrades silently, which only makes
`audioPlaying` false, never otherwise changes the flow. -/
def playQuestion (s : MState) : MState :=
  { s with audioPlaying := s.selectedVoice.isSome }

/-- Model of `MockTestPage.showResults` up to its `await`: clears the auto-advance
interval and shows the "Generating feedback..." spinner while
`/api/sessions/{id}/complete` is in flight (`Screen.finalizing`). -/
def showResults (s : MState) : MState :=
  { s with autoAdvanceTimer := false, screen := .finalizing }

/-- Body of `MockTestPage.renderQuestion`: clears auto-advance, special-cases part
`"3"` (debate), skips to the part transition (or results) when the current
part is out of questions, and otherwise shows the question screen and plays
the prompt. -/
def renderQuestionBody (s : MState) : MState :=
  if s.curPart = "3" then
    match s.debateSide with
    | none => { s with screen := .debateSelection }
    | some _ => playQuestion { s with screen := .debateRecording, hint := .tapToStart }
  else if s.curQuestions.length ≤ s.currentIndex then
    if s.currentPartIndex < mockParts.length - 1 then
      { s with currentPartIndex := s.currentPartIndex + 1,
               currentIndex := 0,
               debateSide := none,
               screen := .partTransition }
    else
      showResults s
  else
    playQuestion { s with screen := .question, hint := .tapToStart }

/-- Entry point `MockTestPage.renderQuestion`: `this.clearAutoAdvance()` first,
then the body above. -/
def renderQuestion (s : MState) : MState :=
  renderQuestionBody { s with autoAdvanceTimer := false }

/-- The `goNext` closure of `showNextWithAutoAdvance`, reachable through the
manual `Next` tap or the countdown expiring — both exist only while the
auto-advance interval is alive. -/
def goNext (s : MState) : MState :=
  if s.autoAdvanceTimer then
    renderQuestion { s with autoAdvanceTimer := false,
                            currentIndex := s.currentIndex + 1,
                            phase := .idle }
  else s

/-- The `#back-btn` / `#finish-btn` handlers.  On the question and
debate-recording screens they run `clearAutoAdvance()`, stop an active
recording (`if (Recorder.isRecording()) Recorder.stop()`, which releases the
microphone; the subsequent `onstop → handleRecording` dies on the detached
DOM before dispatching a submission), and navigate home.  On every other
screen that shows such a button the handler is a bare
`App.navigate('home')`.  Note that no handler pauses `this.currentAudio`. -/
def navigateAway (s : MState) : MState :=
  match s.screen with
  | .question | .debateRecording =>
      { s with autoAdvanceTimer := false, recorderActive := false, screen := .home }
  | .intro | .debateSelection | .partTransition
  | .results | .resultsError | .limitError | .genericError =>
      { s with screen := .home }
  | _ => s

/-- The question text submitted with a response
(`isDebate ? this.currentPartData.topic : this.currentQuestions[this.currentIndex].question`). -/
def questionText (s : MState) : String :=
  if s.curPart = "3" then s.curPartData.topic
  else s.curQuestions.getD s.currentIndex ""

/-- The events the page reacts to: user taps, timer expiry, and the
resolutions of the asynchronous boundary calls. -/
inductive Event
  | startOk (parts : List (String × PartData))
  | startErr (msg : String)
  | startTap
  | voiceTap (v : String)
  | recordTap (elapsed : ℚ) (micOk : Bool)
  | submitOk (transcription : String) (duration : ℚ)
  | submitErr
  | nextTap
  | autoAdvanceFire
  | seeResultsTap
  | finalizeOk
  | finalizeErr
  | backTap
  | finishTap
  | continueTap
  | forTap
  | againstTap
  deriving Repr, DecidableEq

/-- The transition function of `MockTestPage`, one case per event.
`recordTap` carries the oracle inputs the handler reads: the elapsed seconds
`(Date.now() - this.recordingStartTime) / 1000` and whether
`Recorder.start` resolves to `true` (microphone granted). -/
def step (s : MState) (e : Event) : MState :=
  match e with
  | .startOk parts =>
      if s.screen = .loading then { s with test := parts, screen := .intro } else s
  | .startErr msg =>
      if s.screen = .loading then
        { s with screen :=
            if jsIncludes msg "Daily mock limit" then .limitError else .genericError }
      else s
  | .startTap =>
      if s.screen = .intro then renderQuestion s else s
  | .voiceTap v =>
      if s.screen = .intro then
        { s with selectedVoice := if s.selectedVoice = some v then none else some v }
      else s
  | .recordTap elapsed micOk =>
      if s.screen = .question ∨ s.screen = .debateRecording then
        match s.phase with
        | .recording =>
            if elapsed < 5 then
              { s with hint := .waitMore ⌈(5 : ℚ) - elapsed⌉ }
            else
              { s with phase := .processing, recorderActive := false,
                       pendingSubmit := true, hint := .processing }
        | .processing => s
        | .idle =>
            if micOk then
              { s with phase := .recording, recorderActive := true,
                       audioPlaying := false, hint := .recordingMin }
            else
              { s with hint := .micDenied }
      else s
  | .submitOk tr dur =>
      if s.pendingSubmit then
        let r : ResponseRecord :=
          { part := s.curPart, question := questionText s,
            transcription := tr, duration := dur }
        let s' := { s with responses := s.responses ++ [r],
                           pendingSubmit := false, phase := .idle }
        if s.curPart = "3" then s' else { s' with autoAdvanceTimer := true }
      else s
  | .submitErr =>
      if s.pendingSubmit then
        { s with pendingSubmit := false, phase := .idle, hint := .tapToTryAgain }
      else s
  | .nextTap => goNext s
  | .autoAdvanceFire => goNext s
  | .seeResultsTap =>
      if s.screen = .debateRecording then showResults s else s
  | .finalizeOk =>
      if s.screen = .finalizing then { s with screen := .results } else s
  | .finalizeErr =>
      if s.screen = .finalizing then { s with screen := .resultsError } else s
  | .backTap => navigateAway s
  | .finishTap => navigateAway s
  | .continueTap =>
      if s.screen = .partTransition then renderQuestion s else s
  | .forTap =>
      if s.screen = .debateSelection then
        playQuestion { s with debateSide := some .forSide,
                              screen := .debateRecording, hint := .tapToStart }
      else s
  | .againstTap =>
      if s.screen = .debateSelection then
        playQuestion { s with debateSide := some .againstSide,
                              screen := .debateRecording, hint := .tapToStart }
      else s

/-- Running a list of events through `step`. -/
def run (s : MState) : List Event → MState
  | [] => s
  | e :: es => run (step s e) es

/-- Whether the event is a `submitResponse` success that the engine actually
consumes (a submission was in flight). -/
def isSubmitSuccess (s : MState) : Event → Bool
  | .submitOk _ _ => s.pendingSubmit
  | _ => false

/-- Number of successful, consumed submissions along a run. -/
def successCount (s : MState) : List Event → Nat
  | [] => 0
  | e :: es => (if isSubmitSuccess s e then 1 else 0) + successCount (step s e) es

/-- The record appended by a consumed `submitOk` event (arbitrary otherwise). -/
def stepRecord (s : MState) : Event → ResponseRecord
  | .submitOk tr dur =>
      { part := s.curPart, question := questionText s,
        transcription := tr, duration := dur }
  | _ => { part := "", question := "", transcription := "", duration := 0 }

namespace Recorder

/-!
The `Recorder` object of `src/unnamed/part_002`.  Its mutable fields become
a state record; `openStreams` counts microphone streams acquired by
`getUserMedia` whose tracks have not been stopped (the resource the
`cleanup` method releases).  The flags `recording` / `streamOpen` /
`timerActive` describe the *current* `mediaRecorder` / `stream` /
`timerInterval` fields, which `start` overwrites without inspecting. -/

/-- Mutable fields of the `Recorder` singleton. -/
structure State where
  recording : Bool := false
  streamOpen : Bool := false
  timerActive : Bool := false
  openStreams : Nat := 0
  chunks : Nat := 0
  deriving Repr, DecidableEq

/-- Model of `Recorder.start(onTick, onStop, maxDuration)`: stores the callbacks,
clears `chunks`, and requests the microphone.  On grant (`micOk`) it
acquires a fresh stream and a fresh `MediaRecorder` in the `recording`
state, installs a fresh tick interval, and returns `true`; on denial it
returns `false`.  The source performs no check of the current state: the
previous `mediaRecorder`, `stream` and `timerInterval` fields are simply
overwritten. -/
def start (s : State) (micOk : Bool) : State × Bool :=
  let s := { s with chunks := 0 }
  if micOk then
    ({ s with recording := true, streamOpen := true,
              openStreams := s.openStreams + 1, timerActive := true }, true)
  else (s, false)

/-- Model of `Recorder.stop()`: a no-op unless the current `mediaRecorder` is
recording; otherwise `mediaRecorder.stop()` fires `onstop`, which runs
`cleanup` (clearing the interval and stopping the current stream's tracks)
and delivers the blob. -/
def stop (s : State) : State :=
  if s.recording then
    { s with recording := false, timerActive := false, streamOpen := false,
             openStreams := s.openStreams - (if s.streamOpen then 1 else 0) }
  else s

end Recorder

/-!
The practice flow (`PracticePage` of `src/unnamed/part_006`): only the
outcome of `startSession` matters for the claims, in particular the
"No questions available" screen it renders for an empty question list. -/

/-- The screens `PracticePage.startSession` can leave the container in. -/
inductive PScreen
  | pLoading
  | pNoQuestions
  | pQuestion
  | pDebateSelection
  | pError
  | pHome
  deriving Repr, DecidableEq

/-- The payload of a successful `/api/sessions/start` for practice:
`result.questions || []` and `result.part_data || null`. -/
structure StartResult where
  questions : List String := []
  part_data : Option PartData := none
  deriving Repr, DecidableEq

/-- Success path of `PracticePage.startSession`: part `"3"` with part data
goes to debate selection; an empty question list renders the
"No questions available for Part …" card (whose only control is the back
button navigating home); otherwise the first question is rendered. -/
def practiceStartScreen (part : String) (r : StartResult) : PScreen :=
  if part = "3" ∧ r.part_data.isSome then .pDebateSelection
  else if r.questions.isEmpty then .pNoQuestions
  else .pQuestion

/-- The back button of the "No questions available" card:
`App.navigate('home')`. -/
def practiceNoQuestionsBack : PScreen := .pHome

/-!
Display projections shared by `MockTestPage.handleRecording` (lines
532–533) and `PracticePage.handleRecording`: word count and words per
minute, plus the CEFR badge of the results screens. -/

/-- Word count of the transcript:
`result.transcription.split(/\s+/).filter(w => w.length > 0).length`. -/
def countWords (t : String) : Nat :=
  ((t.split fun c => c.isWhitespace).filter fun w => w ≠ "").length

/-- JavaScript `Math.round`: round half toward positive infinity. -/
def jsRound (q : ℚ) : ℤ := ⌊q + 1 / 2⌋

/-- Displayed words-per-minute:
`result.duration > 0 ? Math.round((words / result.duration) * 60) : 0`. -/
def wpmDisplayed (t : String) (d : ℚ) : ℤ :=
  if 0 < d then jsRound ((countWords t : ℚ) / d * 60) else 0

/-- Modelled from the claim's words: zero duration displays 0, positive
duration displays `Math.round((words / durationSec) * 60)` with `words` the
count of non-empty whitespace-separated tokens. -/
def wpmClaim (t : String) (d : ℚ) : ℤ :=
  if d = 0 then 0 else jsRound ((countWords t : ℚ) / d * 60)

/-- Function `cefrBadge(score)` as shared verbatim by `MockTestPage`,
`PracticePage` and `ProgressPage`: `none` models the `''` returned for a
null score, otherwise the pair is the badge's level text and CSS class. -/
def cefrBadge (score : Option ℚ) : Option (String × String) :=
  match score with
  | none => none
  | some q =>
      let r := jsRound q
      if r ≥ 65 then some ("C1", "c1")
      else if r ≥ 51 then some ("B2", "b2")
      else if r ≥ 38 then some ("B1", "b1")
      else some ("Below B1", "below-b1")

/-- Modelled from the claim's words: the level determined by comparing the
rounded score against the fixed thresholds 65 / 51 / 38. -/
def cefrClaimLevel (r : ℤ) : String :=
  if 65 ≤ r then "C1"
  else if 51 ≤ r then "B2"
  else if 38 ≤ r then "B1"
  else "Below B1"

/-! ## Helper lemmas -/

theorem playQuestion_responses (s : MState) : (playQuestion s).responses = s.responses := rfl

theorem showResults_responses (s : MState) : (showResults s).responses = s.responses := rfl

theorem renderQuestionBody_responses (s : MState) :
    (renderQuestionBody s).responses = s.responses := by
  unfold renderQuestionBody playQuestion showResults
  repeat' split
  all_goals rfl

theorem renderQuestion_responses (s : MState) :
    (renderQuestion s).responses = s.responses := by
  unfold renderQuestion
  rw [renderQuestionBody_responses]

theorem goNext_responses (s : MState) : (goNext s).responses = s.responses := by
  unfold goNext
  split
  · exact renderQuestion_responses _
  · rfl

theorem navigateAway_responses (s : MState) :
    (navigateAway s).responses = s.responses := by
  unfold navigateAway
  split <;> rfl

/-- Every transition of the flow engine either leaves `responses` untouched
or appends exactly the record of the successful submission being consumed. -/
theorem step_responses_eq (s : MState) (e : Event) :
    (step s e).responses =
      s.responses ++ (if isSubmitSuccess s e then [stepRecord s e] else []) := by
  cases e <;>
    simp only [step, isSubmitSuccess, stepRecord] <;>
    repeat' split
  all_goals
    simp_all [renderQuestion_responses, goNext_responses, navigateAway_responses,
      playQuestion_responses, showResults_responses]

/-! ## Claims -/

/-- C2: over any run of the mock-test flow engine, the `responses` list is
append-only (the old list is always a prefix of the new one — entries are
never removed, replaced or reordered), every single transition appends
exactly the one record of a consumed successful submission or nothing at
all (so there is exactly one entry per answered prompt, in answer order,
and none for an unanswered or in-progress prompt), the length equals the
previous length plus the number of successful, consumed `submitResponse`
calls of the run, and it is monotonically non-decreasing. -/
theorem mock_responses_append_only (s : MState) (es : List Event) :
    (∀ e, (step s e).responses =
      s.responses ++ (if isSubmitSuccess s e then [stepRecord s e] else [])) ∧
    s.responses <+: (run s es).responses ∧
    (run s es).responses.length = s.responses.length + successCount s es ∧
    s.responses.length ≤ (run s es).responses.length := by
  refine ⟨fun e => step_responses_eq s e, ?_⟩
  induction es generalizing s with
  | nil => simp [run, successCount]
  | cons e es ih =>
    obtain ⟨hpre, hlen, -⟩ := ih (step s e)
    have h := step_responses_eq s e
    have hstep : s.responses <+: (step s e).responses := ⟨_, h.symm⟩
    have hlen1 : (step s e).responses.length =
        s.responses.length + (if isSubmitSuccess s e then 1 else 0) := by
      rw [h, List.length_append]
      by_cases hb : isSubmitSuccess s e <;> simp [hb]
    refine ⟨hstep.trans hpre, ?_, ?_⟩
    · show (run (step s e) es).responses.length = _
      rw [hlen, hlen1]
      simp only [successCount]
      omega
    · show s.responses.length ≤ (run (step s e) es).responses.length
      omega

/-- A concrete 4-part test payload used by the concrete-input theorems. -/
def demoTest : List (String × PartData) :=
  [("1.1", { questions := ["Tell me about your hometown.",
                           "What do you do in your free time?",
                           "Describe your best friend."] }),
   ("1.2", { questions := ["What do you see in the pictures?",
                           "Compare the two pictures.",
                           "Which situation do you prefer?"],
             images := ["a.jpg", "b.jpg"] }),
   ("2", { questions := ["Is technology good for society?",
                         "How do you prefer to learn?",
                         "Describe a challenge you overcame."] }),
   ("3", { topic := "Social media does more harm than good.",
           for_points := ["spreads misinformation"],
           against_points := ["connects people"] })]

/-- Mid-test state: recording the second question of part `"1.1"`, one
response already collected. -/
def c3state : MState :=
  { test := demoTest, currentPartIndex := 0, currentIndex := 1,
    responses := [{ part := "1.1", question := "Tell me about your hometown.",
                    transcription := "I live in a small city near the mountains.",
                    duration := 12 }],
    phase := .recording, debateSide := none, screen := .question,
    autoAdvanceTimer := false, audioPlaying := false, recorderActive := true,
    pendingSubmit := false, hint := .recordingMin, selectedVoice := none }

/-- C3: a stop tap while the recording's elapsed time is below the 5-second
minimum is rejected with the `Wait ⌈5 - elapsed⌉s more...` hint: the
recording continues (`phase` stays `recording`, the recorder keeps
capturing, no submission is dispatched), no `ResponseRecord` is appended,
and the part and prompt indices are unchanged. -/
theorem mock_early_stop_rejected (s : MState) (elapsed : ℚ) (micOk : Bool)
    (hscr : s.screen = Screen.question ∨ s.screen = Screen.debateRecording)
    (hrec : s.phase = RecPhase.recording)
    (hlt : elapsed < 5) :
    (step s (Event.recordTap elapsed micOk)).responses = s.responses ∧
    (step s (Event.recordTap elapsed micOk)).currentIndex = s.currentIndex ∧
    (step s (Event.recordTap elapsed micOk)).currentPartIndex = s.currentPartIndex ∧
    (step s (Event.recordTap elapsed micOk)).phase = RecPhase.recording ∧
    (step s (Event.recordTap elapsed micOk)).recorderActive = s.recorderActive ∧
    (step s (Event.recordTap elapsed micOk)).pendingSubmit = s.pendingSubmit ∧
    (step s (Event.recordTap elapsed micOk)).screen = s.screen ∧
    (step s (Event.recordTap elapsed micOk)).hint = Hint.waitMore ⌈(5 : ℚ) - elapsed⌉ := by
  rcases hscr with hscr | hscr <;> simp [step, hscr, hrec, hlt]

/-- C3 witness: stop tap at 2 s of a 5-second-minimum recording. -/
theorem mock_early_stop_rejected_witness :
    (c3state.screen = Screen.question ∨ c3state.screen = Screen.debateRecording) ∧
    c3state.phase = RecPhase.recording ∧
    ((2 : ℚ) < 5) ∧
    ((step c3state (Event.recordTap 2 true)).responses = c3state.responses ∧
     (step c3state (Event.recordTap 2 true)).currentIndex = c3state.currentIndex ∧
     (step c3state (Event.recordTap 2 true)).currentPartIndex = c3state.currentPartIndex ∧
     (step c3state (Event.recordTap 2 true)).phase = RecPhase.recording ∧
     (step c3state (Event.recordTap 2 true)).recorderActive = c3state.recorderActive ∧
     (step c3state (Event.recordTap 2 true)).pendingSubmit = c3state.pendingSubmit ∧
     (step c3state (Event.recordTap 2 true)).screen = c3state.screen ∧
     (step c3state (Event.recordTap 2 true)).hint = Hint.waitMore ⌈(5 : ℚ) - 2⌉) :=
  ⟨Or.inl rfl, rfl, by norm_num,
   mock_early_stop_rejected c3state 2 true (Or.inl rfl) rfl (by norm_num)⟩

/-- State with a submission in flight for the second question of part
`"1.1"`. -/
def c4state : MState :=
  { c3state with phase := .processing, recorderActive := false,
                 pendingSubmit := true, hint := .processing }

/-- C4: when the in-flight submission fails, no `ResponseRecord` is
appended (the collected list is exactly preserved), the part and prompt
indices do not advance, and the engine returns to a recording-ready state
(`phase = idle`, hint `Tap to try again`, same question screen) from which a
record tap starts a new recording for the same prompt without touching the
responses. -/
theorem mock_submit_error_preserves (s : MState)
    (hp : s.pendingSubmit = true)
    (hscr : s.screen = Screen.question ∨ s.screen = Screen.debateRecording) :
    (step s Event.submitErr).responses = s.responses ∧
    (step s Event.submitErr).currentIndex = s.currentIndex ∧
    (step s Event.submitErr).currentPartIndex = s.currentPartIndex ∧
    (step s Event.submitErr).phase = RecPhase.idle ∧
    (step s Event.submitErr).screen = s.screen ∧
    (step s Event.submitErr).hint = Hint.tapToTryAgain ∧
    (step (step s Event.submitErr) (Event.recordTap 0 true)).phase = RecPhase.recording ∧
    (step (step s Event.submitErr) (Event.recordTap 0 true)).currentIndex = s.currentIndex ∧
    (step (step s Event.submitErr) (Event.recordTap 0 true)).responses = s.responses := by
  rcases hscr with hscr | hscr <;> simp [step, hp, hscr]

/-- C4 witness: submission failure at `c4state`. -/
theorem mock_submit_error_preserves_witness :
    c4state.pendingSubmit = true ∧
    (c4state.screen = Screen.question ∨ c4state.screen = Screen.debateRecording) ∧
    ((step c4state Event.submitErr).responses = c4state.responses ∧
     (step c4state Event.submitErr).currentIndex = c4state.currentIndex ∧
     (step c4state Event.submitErr).currentPartIndex = c4state.currentPartIndex ∧
     (step c4state Event.submitErr).phase = RecPhase.idle ∧
     (step c4state Event.submitErr).screen = c4state.screen ∧
     (step c4state Event.submitErr).hint = Hint.tapToTryAgain ∧
     (step (step c4state Event.submitErr) (Event.recordTap 0 true)).phase = RecPhase.recording ∧
     (step (step c4state Event.submitErr) (Event.recordTap 0 true)).currentIndex = c4state.currentIndex ∧
     (step (step c4state Event.submitErr) (Event.recordTap 0 true)).responses = c4state.responses) :=
  ⟨rfl, Or.inl rfl, mock_submit_error_preserves c4state rfl (Or.inl rfl)⟩

/-- Mid-test state on the question screen of part `"1.2"` (part 2 of 4)
with two responses already collected, recording idle. -/
def c1state : MState :=
  { test := demoTest, currentPartIndex := 1, currentIndex := 0,
    responses := [{ part := "1.1", question := "Tell me about your hometown.",
                    transcription := "I live in a small city near the mountains.",
                    duration := 12 },
                  { part := "1.1", question := "What do you do in your free time?",
                    transcription := "I mostly read and play football.",
                    duration := 15 }],
    phase := .idle, debateSide := none, screen := .question,
    autoAdvanceTimer := false, audioPlaying := false, recorderActive := false,
    pendingSubmit := false, hint := .tapToStart, selectedVoice := none }

/-- C1 counterexample: with responses `[r1, r2]` collected mid part 2 of 4,
tapping the `Finish` button does *not* transition to `Finalizing` (the
`showResults` scoring call): the handler at `mock-test.js:289-293` runs
`clearAutoAdvance()`, stops any recording, and navigates home.  The state
after the tap is on the `home` screen, not the `finalizing` screen. -/
theorem mock_finish_navigates_home_cex :
    (step c1state Event.finishTap).screen = Screen.home ∧
    (step c1state Event.finishTap).screen ≠ Screen.finalizing :=
  ⟨rfl, by decide⟩

/-- C1 amended: triggering the `Finish` button on a question or
debate-recording screen — regardless of how many responses have been
collected — cancels the auto-advance countdown, stops any active recording,
and navigates away to home; it never transitions to `Finalizing` (the
accumulated responses are left as they are and no scoring call is made). -/
theorem mock_finish_navigates_home (s : MState)
    (h : s.screen = Screen.question ∨ s.screen = Screen.debateRecording) :
    (step s Event.finishTap).screen = Screen.home ∧
    (step s Event.finishTap).autoAdvanceTimer = false ∧
    (step s Event.finishTap).recorderActive = false ∧
    (step s Event.finishTap).responses = s.responses ∧
    (step s Event.finishTap).screen ≠ Screen.finalizing := by
  rcases h with h | h <;> simp [step, navigateAway, h]

/-- C1 witness: the amended behaviour at the concrete state `c1state`. -/
theorem mock_finish_navigates_home_witness :
    (c1state.screen = Screen.question ∨ c1state.screen = Screen.debateRecording) ∧
    ((step c1state Event.finishTap).screen = Screen.home ∧
     (step c1state Event.finishTap).autoAdvanceTimer = false ∧
     (step c1state Event.finishTap).recorderActive = false ∧
     (step c1state Event.finishTap).responses = c1state.responses ∧
     (step c1state Event.finishTap).screen ≠ Screen.finalizing) :=
  ⟨Or.inl rfl, mock_finish_navigates_home c1state (Or.inl rfl)⟩

/-- Question-screen state in which the prompt audio is still playing (a
voice is selected and `playQuestion` started playback). -/
def c5state : MState :=
  { c1state with audioPlaying := true, selectedVoice := some "sarah" }

/-- C5 counterexample: navigating away (back tap) from the question screen
while the prompt audio is playing leaves the audio playing — neither the
back nor the finish handler of `mock-test.js` pauses `this.currentAudio`,
so "no audio still playing after navigation away" fails. -/
theorem mock_back_leaves_audio_cex :
    (step c5state Event.backTap).screen = Screen.home ∧
    (step c5state Event.backTap).audioPlaying = true :=
  ⟨rfl, rfl⟩

/-- C5 amended: navigating away (back tap) from the question or
debate-recording screen cancels the auto-advance countdown and stops any
active recording, releasing the microphone — but it does not cancel
in-flight prompt playback: `audioPlaying` is left exactly as it was. -/
theorem mock_back_releases_all_but_audio (s : MState)
    (h : s.screen = Screen.question ∨ s.screen = Screen.debateRecording) :
    (step s Event.backTap).screen = Screen.home ∧
    (step s Event.backTap).autoAdvanceTimer = false ∧
    (step s Event.backTap).recorderActive = false ∧
    (step s Event.backTap).audioPlaying = s.audioPlaying := by
  rcases h with h | h <;> simp [step, navigateAway, h]

/-- C5 witness: the amended behaviour at the concrete state `c5state`. -/
theorem mock_back_releases_all_but_audio_witness :
    (c5state.screen = Screen.question ∨ c5state.screen = Screen.debateRecording) ∧
    ((step c5state Event.backTap).screen = Screen.home ∧
     (step c5state Event.backTap).autoAdvanceTimer = false ∧
     (step c5state Event.backTap).recorderActive = false ∧
     (step c5state Event.backTap).audioPlaying = c5state.audioPlaying) :=
  ⟨Or.inl rfl, mock_back_releases_all_but_audio c5state (Or.inl rfl)⟩

/-- A test payload whose part `"1.1"` has no questions. -/
def emptyPartTest : List (String × PartData) :=
  [("1.1", {}),
   ("1.2", { questions := ["What do you see in the pictures?"] }),
   ("2", { questions := ["Is technology good for society?"] }),
   ("3", { topic := "Social media does more harm than good." })]

/-- Intro screen of a mock test whose first part has an empty question
list. -/
def c6state : MState :=
  { initMock with test := emptyPartTest, screen := .intro }

/-- C6 counterexample: starting a mock test whose part `"1.1"` has an empty
question list does not surface any "content unavailable" terminal sub-state
for that part — `renderQuestion` silently advances `currentPartIndex` to the
next part and shows the part-transition screen instead. -/
theorem mock_empty_part_skipped_cex :
    (step c6state Event.startTap).screen = Screen.partTransition ∧
    (step c6state Event.startTap).currentPartIndex = 1 ∧
    (step c6state Event.startTap).screen ≠ Screen.question :=
  ⟨rfl, rfl, by decide⟩

/-- C6 amended: an empty question list never crashes the engine (`step` is
total) and earlier responses are preserved, but the two flows differ: the
mock-test engine silently skips an empty non-final, non-debate part
(advancing to the next part's transition screen), while the single-part
practice flow surfaces the "No questions available" screen, whose back
button exits to home. -/
theorem empty_question_list_behavior (s : MState) (part : String) (r : StartResult)
    (hscr : s.screen = Screen.intro) (hq : s.curQuestions = [])
    (hp3 : s.curPart ≠ "3") (hlt : s.currentPartIndex < mockParts.length - 1)
    (hpd : r.part_data = none) (hq2 : r.questions = []) :
    ((step s Event.startTap).screen = Screen.partTransition ∧
     (step s Event.startTap).currentPartIndex = s.currentPartIndex + 1 ∧
     (step s Event.startTap).responses = s.responses) ∧
    (practiceStartScreen part r = PScreen.pNoQuestions ∧
     practiceNoQuestionsBack = PScreen.pHome) := by
  constructor
  · have hq' := hq
    have hp3' := hp3
    simp [MState.curQuestions, MState.curPartData, MState.curPart] at hq' hp3'
    simp [step, hscr, renderQuestion, renderQuestionBody, MState.curPart,
      MState.curQuestions, MState.curPartData, hq', hp3', hlt]
  · simp [practiceStartScreen, practiceNoQuestionsBack, hpd, hq2]

/-- C6 witness: the amended behaviour at `c6state` and an empty practice
start result for part `"1.1"`. -/
theorem empty_question_list_behavior_witness :
    c6state.screen = Screen.intro ∧ c6state.curQuestions = [] ∧
    c6state.curPart ≠ "3" ∧ c6state.currentPartIndex < mockParts.length - 1 ∧
    (StartResult.part_data {} = none) ∧ (StartResult.questions {} = []) ∧
    (((step c6state Event.startTap).screen = Screen.partTransition ∧
      (step c6state Event.startTap).currentPartIndex = c6state.currentPartIndex + 1 ∧
      (step c6state Event.startTap).responses = c6state.responses) ∧
     (practiceStartScreen "1.1" {} = PScreen.pNoQuestions ∧
      practiceNoQuestionsBack = PScreen.pHome)) :=
  ⟨rfl, rfl, by decide, by decide, rfl, rfl,
   empty_question_list_behavior c6state "1.1" {} rfl rfl (by decide) (by decide) rfl rfl⟩

/-- States reachable after the daily-quota failure screen: the
upgrade-prompt rendering or home, with no auto-advance interval and no
submission in flight. -/
def limitReachable (s : MState) : Prop :=
  (s.screen = Screen.limitError ∨ s.screen = Screen.home) ∧
  s.autoAdvanceTimer = false ∧ s.pendingSubmit = false

theorem limitReachable_step (s : MState) (e : Event) (h : limitReachable s) :
    limitReachable (step s e) := by
  obtain ⟨hscr, hat, hp⟩ := h
  rcases hscr with hscr | hscr <;>
    cases e <;>
      simp [limitReachable, step, navigateAway, goNext, hscr, hat, hp]

theorem limitReachable_run (s : MState) (es : List Event) (h : limitReachable s) :
    limitReachable (run s es) := by
  induction es generalizing s with
  | nil => exact h
  | cons e es ih => exact ih _ (limitReachable_step s e h)

/-- C7: when `/api/sessions/start` fails with the daily-quota message
(`err.message.includes('Daily mock limit')`), the engine renders the
upgrade-prompt screen, which is a different rendering from the generic
error screen shown for any other failure message; and no continuation of
events from there ever shows a question, debate-selection, or
debate-recording screen for that session. -/
theorem mock_limit_exceeded_terminal (msg : String) (es : List Event)
    (hmsg : jsIncludes msg "Daily mock limit" = true) :
    (step initMock (Event.startErr msg)).screen = Screen.limitError ∧
    (∀ m, jsIncludes m "Daily mock limit" = false →
      (step initMock (Event.startErr m)).screen = Screen.genericError) ∧
    Screen.limitError ≠ Screen.genericError ∧
    (run (step initMock (Event.startErr msg)) es).screen ≠ Screen.question ∧
    (run (step initMock (Event.startErr msg)) es).screen ≠ Screen.debateSelection ∧
    (run (step initMock (Event.startErr msg)) es).screen ≠ Screen.debateRecording := by
  have h1 : (step initMock (Event.startErr msg)).screen = Screen.limitError := by
    simp [step, initMock, hmsg]
  have hlr : limitReachable (step initMock (Event.startErr msg)) := by
    refine ⟨Or.inl h1, ?_, ?_⟩ <;> simp [step, initMock, hmsg]
  obtain ⟨hscr, -, -⟩ := limitReachable_run _ es hlr
  refine ⟨h1, fun m hm => by simp [step, initMock, hm], by decide, ?_, ?_, ?_⟩ <;>
    rcases hscr with h | h <;> simp [h]

/-- C7 witness: a concrete quota-exhaustion message and the empty
continuation. -/
theorem mock_limit_exceeded_terminal_witness :
    jsIncludes "Daily mock limit reached. Upgrade to Premium." "Daily mock limit" = true ∧
    ((step initMock (Event.startErr "Daily mock limit reached. Upgrade to Premium.")).screen
        = Screen.limitError ∧
     (∀ m, jsIncludes m "Daily mock limit" = false →
       (step initMock (Event.startErr m)).screen = Screen.genericError) ∧
     Screen.limitError ≠ Screen.genericError ∧
     (run (step initMock
        (Event.startErr "Daily mock limit reached. Upgrade to Premium.")) []).screen
        ≠ Screen.question ∧
     (run (step initMock
        (Event.startErr "Daily mock limit reached. Upgrade to Premium.")) []).screen
        ≠ Screen.debateSelection ∧
     (run (step initMock
        (Event.startErr "Daily mock limit reached. Upgrade to Premium.")) []).screen
        ≠ Screen.debateRecording) :=
  ⟨by decide,
   mock_limit_exceeded_terminal "Daily mock limit reached. Upgrade to Premium." []
     (by decide)⟩

/-- A `Recorder` mid-capture: one open stream, recorder and tick interval
live. -/
def c8state : Recorder.State :=
  { recording := true, streamOpen := true, timerActive := true,
    openStreams := 1, chunks := 3 }

/-- C8 counterexample: calling `Recorder.start` while a recording is
already active does not fail — it resolves successfully (`true`) and
silently begins a new capture session, leaving the previous stream's
microphone handle open (`openStreams` grows from 1 to 2).  The source
performs no state check before overwriting `mediaRecorder`, `stream` and
`timerInterval`. -/
theorem recorder_start_while_recording_cex :
    (Recorder.start c8state true).2 = true ∧
    (Recorder.start c8state true).1.recording = true ∧
    (Recorder.start c8state true).1.openStreams = 2 :=
  ⟨rfl, rfl, rfl⟩

/-- C8 amended: `Recorder.start` invoked while already recording does not
fail with any error: with the microphone granted it returns success and
silently restarts capture, replacing the tracked recorder and stream; the
previous stream is dropped without its tracks being stopped, so the count
of open microphone streams strictly grows. -/
theorem recorder_start_restarts_silently (s : Recorder.State)
    (_h : s.recording = true) :
    (Recorder.start s true).2 = true ∧
    (Recorder.start s true).1.recording = true ∧
    (Recorder.start s true).1.openStreams = s.openStreams + 1 := by
  simp [Recorder.start]

/-- C8 witness: the amended behaviour at the concrete mid-capture state. -/
theorem recorder_start_restarts_silently_witness :
    c8state.recording = true ∧
    ((Recorder.start c8state true).2 = true ∧
     (Recorder.start c8state true).1.recording = true ∧
     (Recorder.start c8state true).1.openStreams = c8state.openStreams + 1) :=
  ⟨rfl, recorder_start_restarts_silently c8state rfl⟩

/-- C9: for a non-negative duration the displayed words-per-minute value
agrees with the claim's description — `0` when the returned duration is
zero (the division is guarded and never evaluated), and
`Math.round((words / durationSec) * 60)` when the duration is positive,
with `words` the number of non-empty whitespace-separated tokens of the
transcript. -/
theorem wpm_display_guarded (t : String) (d : ℚ) (h : 0 ≤ d) :
    wpmDisplayed t d = wpmClaim t d ∧ wpmDisplayed t 0 = 0 := by
  constructor
  · unfold wpmDisplayed wpmClaim
    rcases eq_or_lt_of_le h with h0 | h0
    · simp [← h0]
    · rw [if_pos h0, if_neg (ne_of_gt h0)]
  · simp [wpmDisplayed]

/-- C9 witness: a six-word transcript over 30 seconds. -/
theorem wpm_display_guarded_witness :
    (0 : ℚ) ≤ 30 ∧
    (wpmDisplayed "we shall see about that tomorrow" 30
        = wpmClaim "we shall see about that tomorrow" 30 ∧
     wpmDisplayed "we shall see about that tomorrow" 0 = 0) :=
  ⟨by norm_num, wpm_display_guarded "we shall see about that tomorrow" 30 (by norm_num)⟩

/-- C10: the CEFR badge of a non-null score is exactly the level obtained
by rounding the score (JavaScript `Math.round`, i.e. half toward +∞) and
comparing against the fixed thresholds 65 (`C1`), 51 (`B2`), 38 (`B1`),
else `Below B1`; a null score yields no badge. -/
theorem cefr_badge_matches_thresholds (score : Option ℚ) :
    (cefrBadge score).map Prod.fst = score.map (fun q => cefrClaimLevel (jsRound q)) ∧
    cefrBadge none = none := by
  refine ⟨?_, rfl⟩
  cases score with
  | none => rfl
  | some q =>
    simp only [cefrBadge, cefrClaimLevel, Option.map_some']
    split_ifs with h1 h2 h3 <;> rfl
